import Mathlib

/-!
Shallow embedding of `src/streamlit_app.py` (class `MedViewChat`): the
conversation state machine (session state with a message log and a selected
category) and the API adapter (`query`, `get_bot_response`), together with the
submit flow of `render_chat_interface` and the category catalog.
-/

namespace MedView

/-- JSON values as decoded by `response.json()` in the Python `requests`
library: null, booleans, numbers, strings, arrays and objects. -/
inductive Json where
  | null
  | bool (b : Bool)
  | num (n : Int)
  | str (s : String)
  | arr (elems : List Json)
  | obj (fields : List (String × Json))

/-- The connection apology returned at line 65 of `streamlit_app.py`. -/
def apologyConnect : String :=
  "I apologize, but I'm having trouble connecting. Please try again."

/-- The unexpected-error apology returned at line 70 of `streamlit_app.py`. -/
def apologyError : String :=
  "I apologize, but I encountered an error. Please try again in a moment."

/-- The seed assistant greeting of `initialize_session_state` (lines 15-18). -/
def greeting : String :=
  "Hello! I'm your MedView assistant. How can I help you with your medical device today?"

/-- `MedViewChat.get_category_descriptions` (lines 30-41): the fixed catalog of
seven category labels with their one-sentence descriptions. -/
def get_category_descriptions : List (String × String) :=
  [("Setup & Sensor Placement",
    "Questions about device setup, sensor placement, and installation."),
   ("Calibration & Device Connection",
    "Questions about calibration and pairing your device."),
   ("Understanding Readings & Alerts",
    "Questions on interpreting device readings and alerts."),
   ("Daily Usage & Data Management",
    "Questions regarding daily use, data review, and sharing device info."),
   ("Maintenance & Sensor Replacement",
    "Questions about cleaning, maintaining, and replacing sensors."),
   ("Troubleshooting & Common Issues",
    "Questions related to error messages and device troubleshooting."),
   ("Travel & Storage",
    "Questions about storing supplies or traveling with your device.")]

/-- The seven category labels, the keys of the catalog (line 83 uses exactly
these as the radio options). -/
def categoryLabels : List String :=
  get_category_descriptions.map Prod.fst

/-- Whether `pat` occurs as a contiguous run inside `s`, checked position by
position. -/
def occursIn (pat s : List Char) : Bool :=
  match s with
  | [] => pat.isEmpty
  | c :: cs => pat.isPrefixOf (c :: cs) || occursIn pat cs

/-- Python substring test `pat in s` on strings: true when `pat` occurs as a
contiguous substring of `s` (the empty pattern always occurs). -/
def strContains (s pat : String) : Bool :=
  occursIn pat.data s.data

/-- Python membership `needle in response` (line 64) on a decoded JSON value:
key membership for a dict, substring test for a string, element equality for a
list; on a number, boolean or null Python raises `TypeError`, modelled as
`none`. -/
def pyContains (needle : String) : Json → Option Bool
  | .obj fields => some (fields.any (fun p => p.1 == needle))
  | .str s => some (strContains s needle)
  | .arr elems =>
      some (elems.any (fun x => match x with | .str s => s == needle | _ => false))
  | .num _ => none
  | .bool _ => none
  | .null => none

/-- Last-binding lookup of a key in a decoded JSON object (Python's
`json.loads` keeps the last occurrence of a duplicated key). -/
def lookupLast (fields : List (String × Json)) (key : String) : Option Json :=
  (fields.reverse.find? (fun p => p.1 == key)).map Prod.snd

/-- Python `response.get(key, default)` (line 67): only dicts have a `get`
method, any other value raises `AttributeError`, modelled as `none`. -/
def pyDictGet (j : Json) (key : String) (default : Json) : Option Json :=
  match j with
  | .obj fields => some ((lookupLast fields key).getD default)
  | _ => none

/-- The outcome of the single HTTP POST of `MedViewChat.query` (line 46), as
seen by the exception handlers: a `requests.exceptions.RequestException`
(network error or the non-2xx raise of `raise_for_status`), any other
exception raised during request/response handling, or a successfully decoded
JSON body. -/
inductive HttpOutcome where
  | requestException
  | otherException
  | success (body : Json)

/-- `MedViewChat.query` (lines 43-51): posts the payload and decodes the JSON
reply; a `RequestException` is caught and replaced by the sentinel
`{"error": "Failed to get response from API"}`; any other exception
propagates to the caller, modelled as `none`. The payload does not influence
the modelled outcome but is what the POST carries. -/
def query (payload : Json) (o : HttpOutcome) : Option Json :=
  match payload, o with
  | _, .requestException =>
      some (.obj [("error", .str "Failed to get response from API")])
  | _, .otherException => none
  | _, .success body => some body

/-- The request body built at lines 56-59: `{"question": q, "category": c}`. -/
def requestPayload (question category : String) : Json :=
  .obj [("question", .str question), ("category", .str category)]

/-- `MedViewChat.get_bot_response` (lines 53-70): builds the payload, calls
`query`, returns the connection apology when the decoded response answers
`"error" in response` positively, otherwise `response.get("text", response)`;
every exception escaping these steps (including the `TypeError` or
`AttributeError` of the dynamic operations, and any non-RequestException
escaping `query`) is caught by the outer `except Exception` and mapped to the
unexpected-error apology. The Python return value may be a non-string (the raw
payload), so the result type is `Json`. -/
def get_bot_response (question category : String) (o : HttpOutcome) : Json :=
  match query (requestPayload question category) o with
  | none => .str apologyError
  | some response =>
    match pyContains "error" response with
    | none => .str apologyError
    | some true => .str apologyConnect
    | some false =>
      match pyDictGet response "text" response with
      | none => .str apologyError
      | some v => v

/-- One entry of `st.session_state.messages`: a role and a content. The
content is whatever value was appended (line 116 appends `get_bot_response`'s
return value, which may be a non-string), so it is a `Json`. -/
structure Message where
  role : String
  content : Json

/-- The part of `st.session_state` the chat uses. A field is `none` when the
corresponding key is absent from the session state. -/
structure SessionState where
  messages : Option (List Message)
  category : Option String

/-- The empty session state, before any key is set. -/
def initialState : SessionState := ⟨none, none⟩

/-- The seed assistant message of lines 15-18. -/
def initialGreeting : Message := ⟨"assistant", .str greeting⟩

/-- `MedViewChat.initialize_session_state` (lines 12-20): seeds `messages`
with the greeting when absent, then seeds `category` with `"General"` when
absent. -/
def initialize_session_state (s : SessionState) : SessionState :=
  let s1 := if s.messages.isNone then { s with messages := some [initialGreeting] } else s
  if s1.category.isNone then { s1 with category := some "General" } else s1

/-- The append of line 111 and line 116: `st.session_state.messages.append`. -/
def appendMessage (msgs : List Message) (role : String) (content : Json) : List Message :=
  msgs ++ [⟨role, content⟩]

/-- Line 123 of `run`: `st.session_state.category = category`, where the value
comes from the sidebar radio constrained to `categoryLabels`. -/
def setCategory (s : SessionState) (c : String) : SessionState :=
  { s with category := some c }

/-- The submit branch of `render_chat_interface` (lines 109-117): append the
user message, obtain the bot response for the current category, append it as
an assistant message. `none` models the `AttributeError` crash were
`messages` or `category` absent (unreachable in the app, which initializes
before rendering). -/
def handleSubmit (s : SessionState) (prompt : String) (o : HttpOutcome) :
    Option SessionState :=
  match s.messages, s.category with
  | some msgs, some cat =>
    let msgs1 := appendMessage msgs "user" (.str prompt)
    let response := get_bot_response prompt cat o
    some { s with messages := some (appendMessage msgs1 "assistant" response) }
  | _, _ => none

/-- An observable effect of the submit branch: a message append or the issuing
of the HTTP POST with its body. -/
inductive Action where
  | append (role : String) (content : Json)
  | send (body : Json)

/-- The effect trace of the submit branch (lines 109-117) in program order:
line 111 appends the user message, line 115 calls `get_bot_response`, which
issues the POST with the built payload (lines 56-62) before any result is
available, and line 116 appends the assistant reply after the call returns. -/
def submitTrace (prompt cat : String) (o : HttpOutcome) : List Action :=
  [.append "user" (.str prompt),
   .send (requestPayload prompt cat),
   .append "assistant" (get_bot_response prompt cat o)]

/-- The conversation states reachable in the app: the constructor initializes
the session state (line 8), a rerun may initialize again, `run` sets the
category to a radio choice from the catalog (lines 83, 123), and a chat
submission runs the submit branch. -/
inductive Reachable : SessionState → Prop where
  | init : Reachable (initialize_session_state initialState)
  | reinit {s} : Reachable s → Reachable (initialize_session_state s)
  | selectCategory {s c} : Reachable s → c ∈ categoryLabels →
      Reachable (setCategory s c)
  | submit {s s' prompt o} : Reachable s → handleSubmit s prompt o = some s' →
      Reachable s'

end MedView

namespace MedView

/-! Helper lemmas shared by the claim theorems. -/

/-- After initialization the category is the prior one, or `"General"` when
none was set. -/
theorem initialize_category (s : SessionState) :
    (initialize_session_state s).category = some (s.category.getD "General") := by
  cases s with
  | mk msgs cat => cases msgs <;> cases cat <;> rfl

/-- A successful submit step does not change the category. -/
theorem handleSubmit_category {s s' : SessionState} {prompt : String}
    {o : HttpOutcome} (h : handleSubmit s prompt o = some s') :
    s'.category = s.category := by
  cases s with
  | mk msgs cat =>
    cases msgs <;> cases cat <;> simp [handleSubmit] at h
    subst h
    rfl

end MedView

namespace MedView

/-- C3: for every question and category, a transport or HTTP-protocol failure
of the POST (a RequestException: network error or non-2xx status) makes
`get_bot_response` return the fixed connection apology rather than raising. -/
theorem c3_transport_failure_apology (q c : String) :
    get_bot_response q c .requestException = .str apologyConnect := by
  rfl

/-- C4: `get_bot_response` is total on every outcome, and every failure other
than a transport/HTTP failure — an exception escaping `query` that is not a
RequestException, or a `TypeError`/`AttributeError` raised while inspecting
the decoded body — is mapped to the fixed unexpected-error apology. -/
theorem c4_unexpected_failure_apology (q c : String) (o : HttpOutcome)
    (h : o = .otherException ∨ ∃ body, o = .success body ∧
      (pyContains "error" body = none ∨
        (pyContains "error" body = some false ∧
          pyDictGet body "text" body = none))) :
    get_bot_response q c o = .str apologyError := by
  rcases h with h | ⟨body, rfl, h⟩
  · subst h; rfl
  · rcases h with h | ⟨h1, h2⟩
    · simp [get_bot_response, query, h]
    · simp [get_bot_response, query, h1, h2]

/-- Witness for C4 at the bare string body `"ok"`: membership succeeds but the
attribute access `.get` fails, so the result is the unexpected-error apology. -/
theorem c4_unexpected_failure_apology_witness :
    get_bot_response "q" "General" (.success (.str "ok")) = .str apologyError :=
  c4_unexpected_failure_apology "q" "General" _
    (Or.inr ⟨.str "ok", rfl, Or.inr ⟨rfl, rfl⟩⟩)

/-- C5: a successfully decoded object with a `"text"` field and no `"error"`
key makes `get_bot_response` return exactly the value of the `"text"` field. -/
theorem c5_text_field_extraction (q c : String) (fields : List (String × Json))
    (v : Json) (hErr : fields.any (fun p => p.1 == "error") = false)
    (hText : lookupLast fields "text" = some v) :
    get_bot_response q c (.success (.obj fields)) = v := by
  simp [get_bot_response, query, pyContains, pyDictGet, hErr, hText]

/-- Witness for C5 at the body `("text", "Place the sensor on your upper arm.")`:
the response is exactly the text value. -/
theorem c5_text_field_extraction_witness :
    get_bot_response "Where does the sensor go?" "Setup & Sensor Placement"
        (.success (.obj [("text", .str "Place the sensor on your upper arm.")])) =
      .str "Place the sensor on your upper arm." :=
  c5_text_field_extraction _ _ _ _ rfl rfl

/-- C10: a successfully decoded object containing an `"error"` key is mapped
to the connection apology even when a `"text"` field is also present, the same
string a transport failure produces. -/
theorem c10_error_key_apology (q c : String) (fields : List (String × Json))
    (h : fields.any (fun p => p.1 == "error") = true) :
    get_bot_response q c (.success (.obj fields)) = .str apologyConnect := by
  simp [get_bot_response, query, pyContains, h]

/-- Witness for C10 at a body holding both an `"error"` key and a `"text"`
field: the connection apology wins. -/
theorem c10_error_key_apology_witness :
    get_bot_response "q" "General"
        (.success (.obj [("error", .str "x"), ("text", .str "y")])) =
      .str apologyConnect :=
  c10_error_key_apology _ _ _ rfl

end MedView

namespace MedView

/-- C1 counterexample: a successfully decoded bare JSON string `"ok"` has no
`"text"` field, yet `get_bot_response` does not return the raw payload — the
attribute access `.get` fails on a string and the unexpected-error apology is
returned instead. -/
theorem c1_bare_string_counterexample :
    get_bot_response "q" "Setup & Sensor Placement" (.success (.str "ok")) =
        .str apologyError
    ∧ apologyError ≠ "ok" := by
  constructor
  · rfl
  · decide

/-- C1 amended: a successfully decoded JSON object lacking both a `"text"`
field and an `"error"` key is returned by `get_bot_response` as the raw
decoded payload, unmodified. -/
theorem c1_raw_object_passthrough (q c : String)
    (fields : List (String × Json))
    (hErr : fields.any (fun p => p.1 == "error") = false)
    (hText : lookupLast fields "text" = none) :
    get_bot_response q c (.success (.obj fields)) = .obj fields := by
  simp [get_bot_response, query, pyContains, pyDictGet, hErr, hText]

/-- Witness for the amended C1 at the body `("answer", "ok")`: the raw object
comes back unmodified. -/
theorem c1_raw_object_passthrough_witness :
    get_bot_response "q" "General" (.success (.obj [("answer", .str "ok")])) =
      .obj [("answer", .str "ok")] :=
  c1_raw_object_passthrough _ _ _ rfl rfl

/-- C2 counterexample: immediately after initialization the selected category
is `"General"`, which is not one of the seven labels of the fixed catalog. -/
theorem c2_init_category_counterexample :
    (initialize_session_state initialState).category = some "General"
    ∧ "General" ∉ categoryLabels := by
  constructor
  · rfl
  · decide

/-- C2 amended: in every reachable conversation state the selected category is
set (non-empty) and is either the initialization default `"General"` or one of
the seven labels of the fixed catalog. -/
theorem c2_reachable_category (s : SessionState) (h : Reachable s) :
    ∃ c, s.category = some c ∧ (c = "General" ∨ c ∈ categoryLabels) := by
  induction h with
  | init => exact ⟨"General", rfl, Or.inl rfl⟩
  | reinit _ ih =>
    obtain ⟨c, hc, hv⟩ := ih
    exact ⟨c, by rw [initialize_category, hc]; rfl, hv⟩
  | selectCategory _ hmem _ => exact ⟨_, rfl, Or.inr hmem⟩
  | submit _ hsub ih =>
    obtain ⟨c, hc, hv⟩ := ih
    exact ⟨c, by rw [handleSubmit_category hsub, hc], hv⟩

/-- Witness for the amended C2 at the state reached by initializing the empty
session state. -/
theorem c2_reachable_category_witness :
    ∃ c, (initialize_session_state initialState).category = some c
      ∧ (c = "General" ∨ c ∈ categoryLabels) :=
  c2_reachable_category _ Reachable.init

end MedView

namespace MedView

/-- C6: a message submission with question `q` under selected category `c`
appends exactly one user message and then one assistant message (the new log
is the old one extended by those two, in that order), and the effect trace
shows the POST issued with body exactly `("question", q), ("category", c)`,
after the user append and before the assistant append. -/
theorem c6_submit_flow (s : SessionState) (q c : String) (o : HttpOutcome)
    (msgs : List Message) (hm : s.messages = some msgs)
    (hc : s.category = some c) :
    handleSubmit s q o =
      some { s with
        messages :=
          some (msgs ++ [⟨"user", .str q⟩, ⟨"assistant", get_bot_response q c o⟩]) }
    ∧ submitTrace q c o =
      [.append "user" (.str q),
       .send (.obj [("question", .str q), ("category", .str c)]),
       .append "assistant" (get_bot_response q c o)] := by
  constructor
  · simp [handleSubmit, hm, hc, appendMessage]
  · rfl

/-- Witness for C6: the end-to-end calibration scenario, starting from a
one-message log under category Calibration and Device Connection. -/
theorem c6_submit_flow_witness :
    handleSubmit ⟨some [initialGreeting], some "Calibration & Device Connection"⟩
        "How do I calibrate?"
        (.success (.obj [("text", .str "Open the app and follow the pairing steps.")]))
      = some ⟨some [initialGreeting,
          ⟨"user", .str "How do I calibrate?"⟩,
          ⟨"assistant", get_bot_response "How do I calibrate?"
            "Calibration & Device Connection"
            (.success (.obj [("text", .str "Open the app and follow the pairing steps.")]))⟩],
          some "Calibration & Device Connection"⟩
    ∧ submitTrace "How do I calibrate?" "Calibration & Device Connection"
        (.success (.obj [("text", .str "Open the app and follow the pairing steps.")])) =
      [.append "user" (.str "How do I calibrate?"),
       .send (.obj [("question", .str "How do I calibrate?"),
                    ("category", .str "Calibration & Device Connection")]),
       .append "assistant" (get_bot_response "How do I calibrate?"
          "Calibration & Device Connection"
          (.success (.obj [("text", .str "Open the app and follow the pairing steps.")])))] :=
  c6_submit_flow ⟨some [initialGreeting], some "Calibration & Device Connection"⟩
    "How do I calibrate?" "Calibration & Device Connection"
    (.success (.obj [("text", .str "Open the app and follow the pairing steps.")]))
    [initialGreeting] rfl rfl

/-- C7: initializing the conversation state when no prior state exists yields
a log of exactly one message, whose role is assistant, and the selected
category `"General"`. -/
theorem c7_initialize_fresh :
    (initialize_session_state initialState).messages = some [initialGreeting]
    ∧ initialGreeting.role = "assistant"
    ∧ (initialize_session_state initialState).category = some "General" :=
  ⟨rfl, rfl, rfl⟩

/-- C8: initialization is idempotent — when `messages` and `category` are both
already set, initializing again changes nothing. -/
theorem c8_initialize_idempotent (s : SessionState)
    (hm : s.messages.isSome = true) (hc : s.category.isSome = true) :
    initialize_session_state s = s := by
  cases s with
  | mk msgs cat =>
    cases msgs with
    | none => simp at hm
    | some msgs =>
      cases cat with
      | none => simp at hc
      | some cat => rfl

/-- Witness for C8 at the freshly initialized state. -/
theorem c8_initialize_idempotent_witness :
    initialize_session_state ⟨some [initialGreeting], some "General"⟩ =
      ⟨some [initialGreeting], some "General"⟩ :=
  c8_initialize_idempotent _ rfl rfl

/-- C9: appending a message grows the log by exactly one entry and keeps every
prior entry, unchanged and in its original order, as the prefix of the new
log; nothing is removed or reordered. -/
theorem c9_appendMessage_append_only (msgs : List Message) (role : String)
    (content : Json) :
    (appendMessage msgs role content).length = msgs.length + 1
    ∧ (appendMessage msgs role content).take msgs.length = msgs := by
  constructor
  · simp [appendMessage]
  · simp [appendMessage]

end MedView
